import Mathlib

/-!
Verification of the Poisson-grid image pipeline (`src/pipeline_logic.py`).

A shallow embedding of the three pipeline stages (`generate_poisson_grid`,
`create_jpeg_image`, `upload_image_to_s3`) and of the `__main__` task
dispatch, together with theorems settling the specification claims.

Modelling conventions:
* The S3 object store is a function `bucket → key → Option StoredObject`.
  `put_object` / `get_object` mirror the boto3 calls used by the code.
* IEEE floats are modelled as `Option ℚ`: `some q` is the finite value `q`
  and `none` is NaN.  NumPy true division of integer arrays yields NaN
  (with a warning, not an exception) when the denominator is zero, so
  division is total with a `none` result in that case.
* `astype(np.uint8)` is a C-style cast: truncation toward zero, then
  wrap-around modulo 256.  (NumPy's NaN→uint8 cast is platform dependent;
  it is modelled as 0, and no theorem below depends on that value.)
* The Poisson sampling (`np.random.poisson`) is externalized: the sampled
  raw integer grid is a parameter of the generator stage.
* JPEG encoding (PIL) is an external codec; the encoded byte stream is
  modelled as the pixel matrix together with the quality setting, which
  determines it.  The publisher never inspects these bytes, so this
  identification is faithful for all claims below.
* Each stage maps an input store to `(final store, Except error metadata)`:
  a Python exception aborts the stage, returning the store as mutated so
  far (no store mutation precedes any raising operation in the source).
-/

/-- An IEEE double as stored in a NumPy float64 array: `none` is NaN. -/
def NpFloat : Type := Option ℚ

instance : DecidableEq NpFloat := by unfold NpFloat; infer_instance

/-- NumPy true division of two integers (`(grid - min) / (max - min)`
elementwise): a zero denominator yields NaN, never an exception. -/
def npDivInt (a b : ℤ) : NpFloat :=
  if b = 0 then none else some ((a : ℚ) / (b : ℚ))

/-- Multiplication of a float64 by a finite constant (`normalized_grid * 255`):
NaN is absorbing. -/
def npMul (x : NpFloat) (c : ℚ) : NpFloat :=
  match x with
  | none => none
  | some q => some (q * c)

/-- Truncation toward zero of a rational, as a C float→integer cast does. -/
def truncToZero (q : ℚ) : ℤ :=
  if 0 ≤ q then ⌊q⌋ else ⌈q⌉

/-- `astype(np.uint8)` applied to one float64 value: truncate toward zero and
wrap modulo 256.  NaN is platform dependent; x86 yields 0. -/
def npUint8 (x : NpFloat) : ℕ :=
  match x with
  | none => 0
  | some q => (truncToZero q % 256).toNat

/-- Contents of one stored S3 object. -/
inductive Value where
  | grid (g : List (List NpFloat))
  | image (pixels : List (List ℕ)) (quality : ℕ)
deriving DecidableEq

/-- One S3 object: body plus the content type and metadata attached at put
time. -/
structure StoredObject where
  body : Value
  contentType : Option String
  objMetadata : List (String × String)
deriving DecidableEq

/-- The S3 store: buckets of keyed objects. -/
def Store : Type := String → String → Option StoredObject

/-- The store with no objects. -/
def emptyStore : Store := fun _ _ => none

/-- `s3_client.put_object(Bucket=b, Key=k, Body=v, ...)`. -/
def put_object (s : Store) (b k : String) (v : Value)
    (ct : Option String) (md : List (String × String)) : Store :=
  fun b' k' => if b' = b ∧ k' = k then some ⟨v, ct, md⟩ else s b' k'

/-- `s3_client.get_object(Bucket=b, Key=k)`: `none` models the NoSuchKey
client error. -/
def get_object (s : Store) (b k : String) : Option StoredObject := s b k

/-- The environment a stage container is invoked with: `RUN_ID`,
`S3_DATA_BUCKET`, and the optional `OUTPUT_S3_BUCKET`. -/
structure Env where
  run_id : String
  s3_data_bucket : String
  output_s3_bucket : Option String

/-- Errors a stage can raise. -/
inductive PipelineError where
  | noSuchKey     -- S3 GetObject on an absent key
  | decodeError   -- np.load cannot parse the stored artifact
  | unknownTask   -- the __main__ dispatch ValueError
deriving DecidableEq

/-- `GRID_SIZE = 2048` from the configuration block. -/
def GRID_SIZE : ℕ := 2048

/-- `POISSON_LAMBDA = 3.0` from the configuration block. -/
def POISSON_LAMBDA : ℚ := 3

/-- The grid artifact key `runs/{run_id}/generate_poisson_grid/grid.npy`. -/
def gridKey (rid : String) : String :=
  "runs/" ++ rid ++ "/generate_poisson_grid/grid.npy"

/-- The intermediate image key
`runs/{run_id}/create_jpeg_image/poisson_grid.jpg`. -/
def tempKey (rid : String) : String :=
  "runs/" ++ rid ++ "/create_jpeg_image/poisson_grid.jpg"

/-- The final published key
`poisson-grid-images/{run_id}/poisson_grid_{GRID_SIZE}x{GRID_SIZE}.jpg`. -/
def finalKey (rid : String) : String :=
  "poisson-grid-images/" ++ rid ++ "/poisson_grid_" ++ toString GRID_SIZE
    ++ "x" ++ toString GRID_SIZE ++ ".jpg"

/-- `grid.min()`: minimum over all entries; `none` on an empty array
(NumPy raises there). -/
def gridMin (g : List (List ℤ)) : Option ℤ :=
  match g.flatten with
  | [] => none
  | x :: xs => some (xs.foldl min x)

/-- `grid.max()`: maximum over all entries. -/
def gridMax (g : List (List ℤ)) : Option ℤ :=
  match g.flatten with
  | [] => none
  | x :: xs => some (xs.foldl max x)

/-- `(grid - grid_min) / (grid_max - grid_min)` elementwise. -/
def normalizeGrid (g : List (List ℤ)) (mn mx : ℤ) : List (List NpFloat) :=
  g.map (fun row => row.map (fun v => npDivInt (v - mn) (mx - mn)))

/-- Metadata record printed by the generator stage. -/
structure GenMetadata where
  grid_size : ℕ
  lam : ℚ
  original_min : ℚ
  original_max : ℚ
  s3_key : String
deriving DecidableEq

/-- Stage 1, `generate_poisson_grid`: normalize the sampled raw grid by its
own min/max and persist the normalized grid at the run's grid key.  The raw
grid (the `np.random.poisson` draw) is a parameter. -/
def generate_poisson_grid (env : Env) (raw : List (List ℤ)) (s : Store) :
    Store × Except PipelineError GenMetadata :=
  match gridMin raw, gridMax raw with
  | some mn, some mx =>
      let normalized := normalizeGrid raw mn mx
      let key := gridKey env.run_id
      let s' := put_object s env.s3_data_bucket key (Value.grid normalized)
        none []
      (s', Except.ok ⟨GRID_SIZE, POISSON_LAMBDA, (mn : ℚ), (mx : ℚ), key⟩)
  | _, _ => (s, Except.error PipelineError.decodeError)

/-- `(normalized_grid * 255).astype(np.uint8)` over the whole grid. -/
def pixelsOf (g : List (List NpFloat)) : List (List ℕ) :=
  g.map (fun row => row.map (fun x => npUint8 (npMul x 255)))

/-- Metadata record printed by the renderer stage. -/
structure ImgMetadata where
  image_size : String
  format : String
  temporary_s3_key : String
deriving DecidableEq

/-- `f"{shape[1]}x{shape[0]}"` for a 2-D array. -/
def imageSizeString (g : List (List NpFloat)) : String :=
  toString (g.headD []).length ++ "x" ++ toString g.length

/-- Stage 2, `create_jpeg_image`: load the normalized grid at the run's grid
key, map every value through the uint8 cast of `value * 255`, encode as JPEG
at quality 95 and persist at the run's intermediate image key.  A missing
key raises (NoSuchKey); a stored object that is not a grid artifact fails to
parse in `np.load`.  No dimension check is performed. -/
def create_jpeg_image (env : Env) (s : Store) :
    Store × Except PipelineError ImgMetadata :=
  match get_object s env.s3_data_bucket (gridKey env.run_id) with
  | none => (s, Except.error PipelineError.noSuchKey)
  | some obj =>
    match obj.body with
    | Value.image _ _ => (s, Except.error PipelineError.decodeError)
    | Value.grid normalized =>
        let key := tempKey env.run_id
        let s' := put_object s env.s3_data_bucket key
          (Value.image (pixelsOf normalized) 95) (some "image/jpeg") []
        (s', Except.ok ⟨imageSizeString normalized, "JPEG", key⟩)

/-- Result record printed by the publisher stage. -/
structure UploadResult where
  final_s3_uri : String
  bucket : String
  key : String
  size : String
deriving DecidableEq

/-- The descriptive metadata the publisher attaches
(`Metadata={'grid-size': ..., 'lambda': ..., 'run-id': ...}`). -/
def uploadMetadata (rid : String) : List (String × String) :=
  [("grid-size", toString GRID_SIZE),
   ("lambda", "3.0"),
   ("run-id", rid)]

/-- The result record the publisher prints. -/
def uploadResult (bucket rid : String) : UploadResult :=
  ⟨"s3://" ++ bucket ++ "/" ++ finalKey rid, bucket, finalKey rid,
   toString GRID_SIZE ++ "x" ++ toString GRID_SIZE⟩

/-- Stage 3, `upload_image_to_s3`: read the bytes at the run's intermediate
image key from the data bucket and write them unchanged to the final key in
`OUTPUT_S3_BUCKET` (defaulting to the data bucket), with content type and
descriptive metadata. -/
def upload_image_to_s3 (env : Env) (s : Store) :
    Store × Except PipelineError UploadResult :=
  match get_object s env.s3_data_bucket (tempKey env.run_id) with
  | none => (s, Except.error PipelineError.noSuchKey)
  | some obj =>
      let output_bucket := env.output_s3_bucket.getD env.s3_data_bucket
      let key := finalKey env.run_id
      let s' := put_object s output_bucket key obj.body (some "image/jpeg")
        (uploadMetadata env.run_id)
      (s', Except.ok (uploadResult output_bucket env.run_id))

/-- The `__main__` dispatch on `TASK_NAME` (an absent variable is `none`):
an unrecognized name raises `ValueError` before any stage logic runs. -/
def runTask (task_name : Option String) (env : Env) (raw : List (List ℤ))
    (s : Store) : Store × Except PipelineError Unit :=
  if task_name = some "generate_poisson_grid" then
    let (s', r) := generate_poisson_grid env raw s
    (s', r.map (fun _ => ()))
  else if task_name = some "create_jpeg_image" then
    let (s', r) := create_jpeg_image env s
    (s', r.map (fun _ => ()))
  else if task_name = some "upload_image_to_s3" then
    let (s', r) := upload_image_to_s3 env s
    (s', r.map (fun _ => ()))
  else
    (s, Except.error PipelineError.unknownTask)

/-- The three store keys a run with id `rid` reads or writes across the
three stages. -/
def runKeys (rid : String) : List String :=
  [gridKey rid, tempKey rid, finalKey rid]

/-- The pixel intensity asserted by the specification:
`round(value * 255)` clamped to `[0, 255]`.  (Stated from the spec's words,
for comparison against the code's `npUint8` cast.) -/
def specRoundIntensity (v : ℚ) : ℤ :=
  max 0 (min 255 (round (v * 255)))

section Lemmas

/-- Cancelling a common literal prefix and suffix of store keys. -/
theorem append_affix_inj (p s r1 r2 : String)
    (h : p ++ r1 ++ s = p ++ r2 ++ s) : r1 = r2 := by
  have hd := congrArg String.data h
  rw [String.data_append, String.data_append, String.data_append,
    String.data_append] at hd
  exact String.ext (List.append_cancel_left (List.append_cancel_right hd))

/-- The last character of `a ++ (b ++ c)` is that of `c` when `c` is
nonempty. -/
theorem getLast?_append_append (a b c : List Char) (h : c ≠ []) :
    (a ++ (b ++ c)).getLast? = c.getLast? := by
  rw [List.getLast?_append_of_ne_nil a
      (fun hn => h (List.append_eq_nil.mp hn).2),
    List.getLast?_append_of_ne_nil b h]

theorem gridKey_last (r : String) : (gridKey r).data.getLast? = some 'y' := by
  unfold gridKey
  rw [String.data_append, String.data_append, List.append_assoc]
  rw [getLast?_append_append _ _ _ (by decide)]
  decide

theorem tempKey_last (r : String) : (tempKey r).data.getLast? = some 'g' := by
  unfold tempKey
  rw [String.data_append, String.data_append, List.append_assoc]
  rw [getLast?_append_append _ _ _ (by decide)]
  decide

theorem gridKey_head (r : String) : (gridKey r).data.head? = some 'r' := by
  unfold gridKey
  rw [String.data_append, String.data_append]
  rfl

theorem tempKey_head (r : String) : (tempKey r).data.head? = some 'r' := by
  unfold tempKey
  rw [String.data_append, String.data_append]
  rfl

/-- `finalKey` in the canonical prefix/run-id/suffix shape. -/
theorem finalKey_eq (r : String) :
    finalKey r = "poisson-grid-images/" ++ r ++ "/poisson_grid_2048x2048.jpg" := by
  unfold finalKey
  rw [String.append_assoc ("poisson-grid-images/" ++ r),
    String.append_assoc ("poisson-grid-images/" ++ r),
    String.append_assoc ("poisson-grid-images/" ++ r),
    String.append_assoc ("poisson-grid-images/" ++ r)]
  congr 1

theorem finalKey_head (r : String) : (finalKey r).data.head? = some 'p' := by
  rw [finalKey_eq]
  rw [String.data_append, String.data_append]
  rfl

theorem gridKey_inj (r1 r2 : String) (h : gridKey r1 = gridKey r2) :
    r1 = r2 :=
  append_affix_inj "runs/" "/generate_poisson_grid/grid.npy" r1 r2 h

theorem tempKey_inj (r1 r2 : String) (h : tempKey r1 = tempKey r2) :
    r1 = r2 :=
  append_affix_inj "runs/" "/create_jpeg_image/poisson_grid.jpg" r1 r2 h

theorem finalKey_inj (r1 r2 : String) (h : finalKey r1 = finalKey r2) :
    r1 = r2 := by
  rw [finalKey_eq, finalKey_eq] at h
  exact append_affix_inj _ _ r1 r2 h

theorem gridKey_ne_tempKey (r1 r2 : String) : gridKey r1 ≠ tempKey r2 := by
  intro h
  have := congrArg (fun s => s.data.getLast?) h
  simp only [gridKey_last, tempKey_last] at this
  exact absurd this (by decide)

theorem gridKey_ne_finalKey (r1 r2 : String) : gridKey r1 ≠ finalKey r2 := by
  intro h
  have := congrArg (fun s => s.data.head?) h
  simp only [gridKey_head, finalKey_head] at this
  exact absurd this (by decide)

theorem tempKey_ne_finalKey (r1 r2 : String) : tempKey r1 ≠ finalKey r2 := by
  intro h
  have := congrArg (fun s => s.data.head?) h
  simp only [tempKey_head, finalKey_head] at this
  exact absurd this (by decide)

/-- The generator stage touches no key outside `runKeys` of its run id. -/
theorem generate_frame (env : Env) (raw : List (List ℤ)) (s : Store)
    (b k : String) (hk : k ∉ runKeys env.run_id) :
    (generate_poisson_grid env raw s).1 b k = s b k := by
  unfold generate_poisson_grid
  cases hmn : gridMin raw <;> cases hmx : gridMax raw <;>
    simp [put_object]
  intro _ hkey
  exact absurd (by simp [runKeys, hkey]) hk

/-- The renderer stage touches no key outside `runKeys` of its run id. -/
theorem render_frame (env : Env) (s : Store)
    (b k : String) (hk : k ∉ runKeys env.run_id) :
    (create_jpeg_image env s).1 b k = s b k := by
  unfold create_jpeg_image
  cases hobj : get_object s env.s3_data_bucket (gridKey env.run_id) with
  | none => rfl
  | some obj =>
    obtain ⟨body, ct, md⟩ := obj
    cases body with
    | image p q => rfl
    | grid g =>
      by_cases hkey : k = tempKey env.run_id
      · exact absurd (by simp [runKeys, hkey]) hk
      · simp [put_object, hkey]

/-- The publisher stage touches no key outside `runKeys` of its run id. -/
theorem upload_frame (env : Env) (s : Store)
    (b k : String) (hk : k ∉ runKeys env.run_id) :
    (upload_image_to_s3 env s).1 b k = s b k := by
  unfold upload_image_to_s3
  cases hobj : get_object s env.s3_data_bucket (tempKey env.run_id) <;>
    simp [put_object]
  intro _ hkey
  exact absurd (by simp [runKeys, hkey]) hk

/-- Reading a key other than the one just written is unaffected. -/
theorem get_object_put_ne (s : Store) (b k b' k' : String) (v : Value)
    (ct : Option String) (md : List (String × String)) (h : k' ≠ k) :
    get_object (put_object s b k v ct md) b' k' = get_object s b' k' := by
  unfold get_object put_object
  rw [if_neg (fun hc => h hc.2)]

/-- Writing the same object at the same location twice equals writing it
once. -/
theorem put_object_idem (s : Store) (b k : String) (v : Value)
    (ct : Option String) (md : List (String × String)) :
    put_object (put_object s b k v ct md) b k v ct md
      = put_object s b k v ct md := by
  funext b' k'
  unfold put_object
  by_cases hc : b' = b ∧ k' = k
  · rw [if_pos hc, if_pos hc]
  · rw [if_neg hc, if_neg hc]

/-- Characterization of the publisher on a store holding the intermediate
image. -/
theorem upload_eq_of_get (env : Env) (s : Store) (obj : StoredObject)
    (h : get_object s env.s3_data_bucket (tempKey env.run_id) = some obj) :
    upload_image_to_s3 env s
      = (put_object s (env.output_s3_bucket.getD env.s3_data_bucket)
           (finalKey env.run_id) obj.body (some "image/jpeg")
           (uploadMetadata env.run_id),
         Except.ok (uploadResult
           (env.output_s3_bucket.getD env.s3_data_bucket) env.run_id)) := by
  unfold upload_image_to_s3
  rw [h]

end Lemmas

/-- C1 counterexample: at the normalized value 1/2 the renderer's uint8
cast (`astype(np.uint8)` of `value * 255`) yields 127, while the claimed
`round(value * 255)` clamped to [0,255] is 128: the code truncates, it
does not round. -/
theorem renderer_round_counterexample :
    npUint8 (npMul (some ((1:ℚ)/2)) 255) = 127 ∧
    specRoundIntensity ((1:ℚ)/2) = 128 := by
  constructor
  · show ((truncToZero ((1:ℚ)/2 * 255)) % 256).toNat = 127
    unfold truncToZero
    rw [if_pos (by norm_num)]
    norm_num
    decide
  · unfold specRoundIntensity
    norm_num [round_eq]

/-- C1 (amended): for every normalized grid value v in [0,1], the 8-bit
intensity the renderer produces equals `⌊v * 255⌋` (truncation toward zero,
not rounding), it lies in [0,255], and the pixel raster has exactly the
dimensions of the loaded grid. -/
theorem renderer_pixel_spec (v : ℚ) (h0 : 0 ≤ v) (h1 : v ≤ 1)
    (g : List (List NpFloat)) :
    npUint8 (npMul (some v) 255) = (⌊v * 255⌋).toNat ∧
    npUint8 (npMul (some v) 255) ≤ 255 ∧
    (pixelsOf g).length = g.length ∧
    (pixelsOf g).map List.length = g.map List.length := by
  have hvv : (0:ℚ) ≤ v * 255 := by positivity
  have hfl : 0 ≤ ⌊v * 255⌋ := Int.floor_nonneg.mpr hvv
  have hle : ⌊v * 255⌋ ≤ 255 := by
    calc ⌊v * 255⌋ ≤ ⌊(255:ℚ)⌋ := Int.floor_le_floor (by nlinarith)
    _ = 255 := by norm_num
  have hmain : npUint8 (npMul (some v) 255) = (⌊v * 255⌋).toNat := by
    show ((truncToZero (v * 255)) % 256).toNat = (⌊v * 255⌋).toNat
    unfold truncToZero
    rw [if_pos hvv, Int.emod_eq_of_lt hfl (by omega)]
  refine ⟨hmain, ?_, ?_, ?_⟩
  · rw [hmain]; omega
  · simp [pixelsOf]
  · simp [pixelsOf]

theorem renderer_pixel_spec_witness :
    (0:ℚ) ≤ (1:ℚ)/2 ∧ (1:ℚ)/2 ≤ 1 ∧
    (npUint8 (npMul (some ((1:ℚ)/2)) 255) = (⌊(1:ℚ)/2 * 255⌋).toNat ∧
     npUint8 (npMul (some ((1:ℚ)/2)) 255) ≤ 255 ∧
     (pixelsOf [[some ((1:ℚ)/2)]]).length = [[some ((1:ℚ)/2)]].length ∧
     (pixelsOf [[some ((1:ℚ)/2)]]).map List.length
       = ([[some ((1:ℚ)/2)]] : List (List NpFloat)).map List.length) :=
  ⟨by norm_num, by norm_num,
   renderer_pixel_spec ((1:ℚ)/2) (by norm_num) (by norm_num)
     [[some ((1:ℚ)/2)]]⟩

/-- C2: on the constant raw grid whose four samples all equal 3, the
generator computes `(grid - 3) / (3 - 3)` elementwise — a 0/0 that NumPy
turns into NaN with only a warning — and silently persists a grid whose
every entry is NaN at the run's grid key. -/
theorem generator_persists_nan_on_constant_grid :
    (generate_poisson_grid ⟨"run-1", "bucket", none⟩ [[3, 3], [3, 3]]
        emptyStore).1 "bucket" (gridKey "run-1")
      = some ⟨Value.grid [[none, none], [none, none]], none, []⟩ := by
  have hmn : gridMin [[(3:ℤ), 3], [3, 3]] = some 3 := by
    simp [gridMin]
  have hmx : gridMax [[(3:ℤ), 3], [3, 3]] = some 3 := by
    simp [gridMax]
  unfold generate_poisson_grid
  rw [hmn, hmx]
  simp [put_object, normalizeGrid, npDivInt]

/-- C3: the publisher writes at the final key, in the configured output
bucket, exactly the body it read at the intermediate image key — no
transformation; only location, content type and descriptive metadata are
attached. -/
theorem publish_byte_identical (env : Env) (s : Store) (obj : StoredObject)
    (h : get_object s env.s3_data_bucket (tempKey env.run_id) = some obj) :
    (upload_image_to_s3 env s).1
        (env.output_s3_bucket.getD env.s3_data_bucket) (finalKey env.run_id)
      = some ⟨obj.body, some "image/jpeg", uploadMetadata env.run_id⟩ ∧
    (upload_image_to_s3 env s).2
      = Except.ok (uploadResult
          (env.output_s3_bucket.getD env.s3_data_bucket) env.run_id) := by
  unfold upload_image_to_s3
  rw [h]
  exact ⟨by simp [put_object], rfl⟩

theorem publish_byte_identical_witness :
    get_object (put_object emptyStore "bkt" (tempKey "run-1")
        (Value.image [[7]] 95) (some "image/jpeg") []) "bkt" (tempKey "run-1")
      = some ⟨Value.image [[7]] 95, some "image/jpeg", []⟩ ∧
    ((upload_image_to_s3 ⟨"run-1", "bkt", none⟩
        (put_object emptyStore "bkt" (tempKey "run-1")
          (Value.image [[7]] 95) (some "image/jpeg") [])).1
        "bkt" (finalKey "run-1")
      = some ⟨Value.image [[7]] 95, some "image/jpeg", uploadMetadata "run-1"⟩ ∧
    (upload_image_to_s3 ⟨"run-1", "bkt", none⟩
        (put_object emptyStore "bkt" (tempKey "run-1")
          (Value.image [[7]] 95) (some "image/jpeg") [])).2
      = Except.ok (uploadResult "bkt" "run-1")) :=
  ⟨rfl, publish_byte_identical ⟨"run-1", "bkt", none⟩
    (put_object emptyStore "bkt" (tempKey "run-1")
      (Value.image [[7]] 95) (some "image/jpeg") [])
    ⟨Value.image [[7]] 95, some "image/jpeg", []⟩ rfl⟩

/-- C5: if the grid artifact for the run is absent, the renderer fails with
the NoSuchKey (NotFound) condition and the store is returned unchanged —
nothing is written. -/
theorem renderer_missing_upstream (env : Env) (s : Store)
    (h : get_object s env.s3_data_bucket (gridKey env.run_id) = none) :
    create_jpeg_image env s = (s, Except.error PipelineError.noSuchKey) := by
  unfold create_jpeg_image
  rw [h]

theorem renderer_missing_upstream_witness :
    get_object emptyStore "bkt" (gridKey "run-1") = none ∧
    create_jpeg_image ⟨"run-1", "bkt", none⟩ emptyStore
      = (emptyStore, Except.error PipelineError.noSuchKey) :=
  ⟨rfl, renderer_missing_upstream ⟨"run-1", "bkt", none⟩ emptyStore rfl⟩

/-- C4: for distinct run ids the key sets of the three stages are disjoint,
and no stage invoked for one run reads a different observable or mutates
any key belonging to the other run: its output store agrees with its input
store at every key of the other run, in every bucket. -/
theorem cross_run_isolation (r1 r2 : String) (hne : r1 ≠ r2)
    (k : String) (hk : k ∈ runKeys r1) (env : Env) (raw : List (List ℤ))
    (s : Store) (b : String) (henv : env.run_id = r2) :
    k ∉ runKeys r2 ∧
    (generate_poisson_grid env raw s).1 b k = s b k ∧
    (create_jpeg_image env s).1 b k = s b k ∧
    (upload_image_to_s3 env s).1 b k = s b k := by
  have hnotin : k ∉ runKeys r2 := by
    intro hk2
    simp only [runKeys, List.mem_cons, List.not_mem_nil, or_false] at hk hk2
    rcases hk with h1 | h1 | h1 <;> rcases hk2 with h2 | h2 | h2 <;> subst h1
    · exact hne (gridKey_inj r1 r2 h2)
    · exact gridKey_ne_tempKey r1 r2 h2
    · exact gridKey_ne_finalKey r1 r2 h2
    · exact gridKey_ne_tempKey r2 r1 h2.symm
    · exact hne (tempKey_inj r1 r2 h2)
    · exact tempKey_ne_finalKey r1 r2 h2
    · exact gridKey_ne_finalKey r2 r1 h2.symm
    · exact tempKey_ne_finalKey r2 r1 h2.symm
    · exact hne (finalKey_inj r1 r2 h2)
  have henvk : k ∉ runKeys env.run_id := by rw [henv]; exact hnotin
  exact ⟨hnotin, generate_frame env raw s b k henvk,
    render_frame env s b k henvk, upload_frame env s b k henvk⟩

theorem cross_run_isolation_witness :
    ("run-a" : String) ≠ "run-b" ∧
    gridKey "run-a" ∈ runKeys "run-a" ∧
    (⟨"run-b", "bkt", none⟩ : Env).run_id = "run-b" ∧
    (gridKey "run-a" ∉ runKeys "run-b" ∧
     (generate_poisson_grid ⟨"run-b", "bkt", none⟩ [[0]] emptyStore).1 "bkt"
         (gridKey "run-a")
       = emptyStore "bkt" (gridKey "run-a") ∧
     (create_jpeg_image ⟨"run-b", "bkt", none⟩ emptyStore).1 "bkt"
         (gridKey "run-a")
       = emptyStore "bkt" (gridKey "run-a") ∧
     (upload_image_to_s3 ⟨"run-b", "bkt", none⟩ emptyStore).1 "bkt"
         (gridKey "run-a")
       = emptyStore "bkt" (gridKey "run-a")) :=
  ⟨by decide, by simp [runKeys], rfl,
   cross_run_isolation "run-a" "run-b" (by decide) (gridKey "run-a")
     (by simp [runKeys]) ⟨"run-b", "bkt", none⟩ [[0]] emptyStore "bkt" rfl⟩

/-- C6: for a non-degenerate raw grid (min < max) the generator persists
exactly `normalizeGrid raw mn mx`, each cell normalizes to the finite value
`(raw - min)/(max - min)`, and `normalized * (max - min) + min`
reconstructs the raw value exactly. -/
theorem normalization_roundtrip (env : Env) (s : Store)
    (g : List (List ℤ)) (mn mx : ℤ)
    (hmn : gridMin g = some mn) (hmx : gridMax g = some mx)
    (hlt : mn < mx) (v : ℤ) :
    (generate_poisson_grid env g s).1 env.s3_data_bucket (gridKey env.run_id)
      = some ⟨Value.grid (normalizeGrid g mn mx), none, []⟩ ∧
    npDivInt (v - mn) (mx - mn)
      = some (((v : ℚ) - (mn : ℚ)) / ((mx : ℚ) - (mn : ℚ))) ∧
    (((v : ℚ) - (mn : ℚ)) / ((mx : ℚ) - (mn : ℚ))) * ((mx : ℚ) - (mn : ℚ))
        + (mn : ℚ) = (v : ℚ) := by
  have hd : (mx : ℚ) - (mn : ℚ) ≠ 0 := by
    have hc : (mn : ℚ) < (mx : ℚ) := by exact_mod_cast hlt
    linarith
  refine ⟨?_, ?_, ?_⟩
  · unfold generate_poisson_grid
    rw [hmn, hmx]
    simp [put_object]
  · unfold npDivInt
    rw [if_neg (by omega)]
    push_cast
    rfl
  · rw [div_mul_cancel₀ _ hd]
    ring

theorem normalization_roundtrip_witness :
    gridMin [[(0:ℤ), 1], [2, 3]] = some 0 ∧
    gridMax [[(0:ℤ), 1], [2, 3]] = some 3 ∧
    (0:ℤ) < 3 ∧
    ((generate_poisson_grid ⟨"run-1", "bkt", none⟩ [[(0:ℤ), 1], [2, 3]]
         emptyStore).1 "bkt" (gridKey "run-1")
       = some ⟨Value.grid (normalizeGrid [[(0:ℤ), 1], [2, 3]] 0 3), none, []⟩ ∧
     npDivInt ((2:ℤ) - 0) (3 - 0)
       = some ((((2:ℤ) : ℚ) - ((0:ℤ) : ℚ)) / (((3:ℤ) : ℚ) - ((0:ℤ) : ℚ))) ∧
     ((((2:ℤ) : ℚ) - ((0:ℤ) : ℚ)) / (((3:ℤ) : ℚ) - ((0:ℤ) : ℚ)))
         * (((3:ℤ) : ℚ) - ((0:ℤ) : ℚ)) + ((0:ℤ) : ℚ) = ((2:ℤ) : ℚ)) :=
  ⟨by simp [gridMin], by simp [gridMax], by norm_num,
   normalization_roundtrip ⟨"run-1", "bkt", none⟩ emptyStore
     [[(0:ℤ), 1], [2, 3]] 0 3 (by simp [gridMin]) (by simp [gridMax])
     (by norm_num) 2⟩

/-- C7: the publisher is idempotent — re-running it with the same run id
and configuration on the store it produced reads the same unchanged
intermediate bytes, writes the same bytes to the same final key, and leaves
the store identical; the final key is a pure function of the run id and the
fixed grid size alone. -/
theorem publish_idempotent (env : Env) (s : Store) (obj : StoredObject)
    (h : get_object s env.s3_data_bucket (tempKey env.run_id) = some obj) :
    upload_image_to_s3 env (upload_image_to_s3 env s).1
      = upload_image_to_s3 env s ∧
    finalKey env.run_id
      = "poisson-grid-images/" ++ env.run_id
          ++ "/poisson_grid_2048x2048.jpg" := by
  refine ⟨?_, finalKey_eq env.run_id⟩
  have h1 := upload_eq_of_get env s obj h
  have hread : get_object (upload_image_to_s3 env s).1 env.s3_data_bucket
      (tempKey env.run_id) = some obj := by
    rw [h1]
    exact (get_object_put_ne s _ _ _ _ obj.body _ _
      (tempKey_ne_finalKey env.run_id env.run_id)).trans h
  have h2 := upload_eq_of_get env (upload_image_to_s3 env s).1 obj hread
  rw [h2, h1]
  rw [put_object_idem]

theorem publish_idempotent_witness :
    get_object (put_object emptyStore "bkt" (tempKey "run-1")
        (Value.image [[7]] 95) (some "image/jpeg") []) "bkt" (tempKey "run-1")
      = some ⟨Value.image [[7]] 95, some "image/jpeg", []⟩ ∧
    (upload_image_to_s3 ⟨"run-1", "bkt", none⟩
        (upload_image_to_s3 ⟨"run-1", "bkt", none⟩
          (put_object emptyStore "bkt" (tempKey "run-1")
            (Value.image [[7]] 95) (some "image/jpeg") [])).1
      = upload_image_to_s3 ⟨"run-1", "bkt", none⟩
          (put_object emptyStore "bkt" (tempKey "run-1")
            (Value.image [[7]] 95) (some "image/jpeg") []) ∧
     finalKey "run-1"
       = "poisson-grid-images/" ++ "run-1" ++ "/poisson_grid_2048x2048.jpg") :=
  ⟨rfl, publish_idempotent ⟨"run-1", "bkt", none⟩
    (put_object emptyStore "bkt" (tempKey "run-1")
      (Value.image [[7]] 95) (some "image/jpeg") [])
    ⟨Value.image [[7]] 95, some "image/jpeg", []⟩ rfl⟩

/-- C8: an unrecognized (or absent) `TASK_NAME` makes the dispatch raise
`ValueError` before any stage logic runs: the result is an error and the
store is returned exactly as given — no writes attempted. -/
theorem unknown_task_aborts (t : Option String) (env : Env)
    (raw : List (List ℤ)) (s : Store)
    (h1 : t ≠ some "generate_poisson_grid")
    (h2 : t ≠ some "create_jpeg_image")
    (h3 : t ≠ some "upload_image_to_s3") :
    runTask t env raw s = (s, Except.error PipelineError.unknownTask) := by
  unfold runTask
  rw [if_neg h1, if_neg h2, if_neg h3]

theorem unknown_task_aborts_witness :
    (some "bogus" : Option String) ≠ some "generate_poisson_grid" ∧
    (some "bogus" : Option String) ≠ some "create_jpeg_image" ∧
    (some "bogus" : Option String) ≠ some "upload_image_to_s3" ∧
    runTask (some "bogus") ⟨"run-1", "bkt", none⟩ [[0]] emptyStore
      = (emptyStore, Except.error PipelineError.unknownTask) :=
  ⟨by decide, by decide, by decide,
   unknown_task_aborts (some "bogus") ⟨"run-1", "bkt", none⟩ [[0]] emptyStore
     (by decide) (by decide) (by decide)⟩

/-- C9 counterexample: with a persisted 1×1 grid (dimensions inconsistent
with the 2048×2048 configuration) the renderer does not fail — it succeeds
and writes a 1×1 image, so the claimed decode/shape failure does not
happen. -/
theorem renderer_ignores_dimension_mismatch :
    (create_jpeg_image ⟨"run-1", "bucket", none⟩
        (put_object emptyStore "bucket" (gridKey "run-1")
          (Value.grid [[some 0]]) none [])).2
      = Except.ok ⟨"1x1", "JPEG", tempKey "run-1"⟩ ∧
    (1 : ℕ) ≠ GRID_SIZE ∧
    (create_jpeg_image ⟨"run-1", "bucket", none⟩
        (put_object emptyStore "bucket" (gridKey "run-1")
          (Value.grid [[some 0]]) none [])).1 "bucket" (tempKey "run-1")
      = some ⟨Value.image [[0]] 95, some "image/jpeg", []⟩ := by
  have hget : get_object (put_object emptyStore "bucket" (gridKey "run-1")
      (Value.grid [[some 0]]) none []) "bucket" (gridKey "run-1")
      = some ⟨Value.grid [[some 0]], none, []⟩ := rfl
  have hpix : pixelsOf [[some 0]] = [[0]] := by
    simp [pixelsOf, npMul, npUint8, truncToZero]
  refine ⟨?_, by decide, ?_⟩
  · unfold create_jpeg_image
    rw [hget]
    rfl
  · unfold create_jpeg_image
    rw [hget]
    simp only []
    unfold put_object
    rw [if_pos ⟨rfl, rfl⟩, hpix]

/-- C9 (amended): the renderer performs no dimension check against the
configuration: for every persisted grid artifact, of any dimensions, it
succeeds and writes an encoded image whose pixel raster has exactly the
loaded grid's dimensions. -/
theorem renderer_no_shape_check (env : Env) (s : Store)
    (g : List (List NpFloat)) (ct : Option String)
    (md : List (String × String))
    (h : get_object s env.s3_data_bucket (gridKey env.run_id)
      = some ⟨Value.grid g, ct, md⟩) :
    create_jpeg_image env s
      = (put_object s env.s3_data_bucket (tempKey env.run_id)
          (Value.image (pixelsOf g) 95) (some "image/jpeg") [],
         Except.ok ⟨imageSizeString g, "JPEG", tempKey env.run_id⟩) ∧
    (pixelsOf g).length = g.length ∧
    (pixelsOf g).map List.length = g.map List.length := by
  refine ⟨?_, by simp [pixelsOf], by simp [pixelsOf]⟩
  unfold create_jpeg_image
  rw [h]

theorem renderer_no_shape_check_witness :
    get_object (put_object emptyStore "bkt" (gridKey "run-1")
        (Value.grid [[some 0]]) none []) "bkt" (gridKey "run-1")
      = some ⟨Value.grid [[some 0]], none, []⟩ ∧
    (create_jpeg_image ⟨"run-1", "bkt", none⟩
        (put_object emptyStore "bkt" (gridKey "run-1")
          (Value.grid [[some 0]]) none [])
      = (put_object (put_object emptyStore "bkt" (gridKey "run-1")
            (Value.grid [[some 0]]) none []) "bkt" (tempKey "run-1")
          (Value.image (pixelsOf [[some 0]]) 95) (some "image/jpeg") [],
         Except.ok ⟨imageSizeString [[some 0]], "JPEG", tempKey "run-1"⟩) ∧
     (pixelsOf [[some 0]]).length = [[some 0]].length ∧
     (pixelsOf [[some 0]]).map List.length
       = ([[some 0]] : List (List NpFloat)).map List.length) :=
  ⟨rfl, renderer_no_shape_check ⟨"run-1", "bkt", none⟩
    (put_object emptyStore "bkt" (gridKey "run-1")
      (Value.grid [[some 0]]) none [])
    [[some 0]] none [] rfl⟩

/-- C10: the publisher reads the intermediate image from the data bucket
whatever `OUTPUT_S3_BUCKET` is set to — the read location and the copied
bytes are independent of it; the output bucket affects only the write
destination, and when it is unset the write goes to the data bucket. -/
theorem upload_bucket_semantics (env : Env) (s : Store) (obj : StoredObject)
    (h : get_object s env.s3_data_bucket (tempKey env.run_id) = some obj) :
    upload_image_to_s3 env s
      = (put_object s (env.output_s3_bucket.getD env.s3_data_bucket)
           (finalKey env.run_id) obj.body (some "image/jpeg")
           (uploadMetadata env.run_id),
         Except.ok (uploadResult
           (env.output_s3_bucket.getD env.s3_data_bucket) env.run_id)) ∧
    upload_image_to_s3 ⟨env.run_id, env.s3_data_bucket, none⟩ s
      = (put_object s env.s3_data_bucket (finalKey env.run_id) obj.body
           (some "image/jpeg") (uploadMetadata env.run_id),
         Except.ok (uploadResult env.s3_data_bucket env.run_id)) :=
  ⟨upload_eq_of_get env s obj h,
   upload_eq_of_get ⟨env.run_id, env.s3_data_bucket, none⟩ s obj h⟩

theorem upload_bucket_semantics_witness :
    get_object (put_object emptyStore "data-bkt" (tempKey "run-1")
        (Value.image [[7]] 95) (some "image/jpeg") []) "data-bkt"
        (tempKey "run-1")
      = some ⟨Value.image [[7]] 95, some "image/jpeg", []⟩ ∧
    (upload_image_to_s3 ⟨"run-1", "data-bkt", some "out-bkt"⟩
        (put_object emptyStore "data-bkt" (tempKey "run-1")
          (Value.image [[7]] 95) (some "image/jpeg") [])
      = (put_object (put_object emptyStore "data-bkt" (tempKey "run-1")
            (Value.image [[7]] 95) (some "image/jpeg") []) "out-bkt"
           (finalKey "run-1") (Value.image [[7]] 95) (some "image/jpeg")
           (uploadMetadata "run-1"),
         Except.ok (uploadResult "out-bkt" "run-1")) ∧
     upload_image_to_s3 ⟨"run-1", "data-bkt", none⟩
        (put_object emptyStore "data-bkt" (tempKey "run-1")
          (Value.image [[7]] 95) (some "image/jpeg") [])
      = (put_object (put_object emptyStore "data-bkt" (tempKey "run-1")
            (Value.image [[7]] 95) (some "image/jpeg") []) "data-bkt"
           (finalKey "run-1") (Value.image [[7]] 95) (some "image/jpeg")
           (uploadMetadata "run-1"),
         Except.ok (uploadResult "data-bkt" "run-1"))) :=
  ⟨rfl, upload_bucket_semantics ⟨"run-1", "data-bkt", some "out-bkt"⟩
    (put_object emptyStore "data-bkt" (tempKey "run-1")
      (Value.image [[7]] 95) (some "image/jpeg") [])
    ⟨Value.image [[7]] 95, some "image/jpeg", []⟩ rfl⟩
